import Mathlib

/-!
# Verification of the GPU-Governor build orchestrator (`src/build.py`)

Shallow embedding of the build script in Lean 4.  Python strings handled by
the sanitizer are modelled as `List Char`; the filesystem is a partial map
from path strings to file contents (`List Nat`, one entry per byte); the
outcomes of external commands (`cargo fmt`, `cargo clippy`, `cargo build`,
`upx`, `cargo clean`) are supplied by oracles, since their semantics are
outside the repository.  Each definition mirrors the source function whose
name it carries.
-/

namespace BuildPy

/-- Embedding of `clean_path_string` (build.py lines 41–51): the Python code
is `path_str.replace('"', "").replace("'", "")`.  For a single-character
pattern and an empty replacement, `str.replace` deletes every occurrence of
that character, i.e. it filters the character out; the double quote is
removed first, then the single quote. -/
def clean_path_string (s : List Char) : List Char :=
  (s.filter (fun c => c ≠ '"')).filter (fun c => c ≠ '\'')

/-- Lifting of `clean_path_string` to Lean `String`s (used for the fixed
configuration paths in `GPUGovernorBuilder.__init__`). -/
def cleanPathStr (s : String) : String :=
  ⟨clean_path_string s.data⟩

/-- Configuration held by `GPUGovernorBuilder` (build.py lines 54–70). -/
structure Builder where
  android_ndk_home : String
  llvm_path : String
  upx_path : String
  target : String
  binary_name : String
  output_dir : String

/-- The concrete configuration set up in `GPUGovernorBuilder.__init__`
(build.py lines 60–67). -/
def defaultBuilder : Builder :=
  { android_ndk_home := cleanPathStr "D:/android-ndk-r27c"
    llvm_path := cleanPathStr "D:/LLVM"
    upx_path := cleanPathStr "D:/upx/upx.exe"
    target := "aarch64-linux-android"
    binary_name := "gpugovernor"
    output_dir := "output" }

/-- The `env_vars` dictionary of `_setup_environment` (build.py lines
98–115), before the per-value cleaning of line 120: the five fixed entries
in insertion order, then the `PATH` entry appended at line 115.  `ndk`,
`llvm` and `currentPath` are the character lists of
`self.android_ndk_home`, `self.llvm_path` and the pre-existing `PATH`
value. -/
def rawEnvVars (ndk llvm currentPath : List Char) : List (String × List Char) :=
  [ ("ANDROID_NDK_HOME", ndk),
    ("LLVM_PATH", llvm),
    ("CARGO_TARGET_AARCH64_LINUX_ANDROID_LINKER",
      ndk ++ ("/toolchains/llvm/prebuilt/windows-x86_64/bin/aarch64-linux-android33-clang.cmd").data),
    ("LIBCLANG_PATH", llvm ++ ("/bin").data),
    ("BINDGEN_EXTRA_CLANG_ARGS",
      ("--target=aarch64-linux-android -I").data ++ ndk
        ++ ("/toolchains/llvm/prebuilt/windows-x86_64/sysroot/usr/include").data),
    ("PATH",
      clean_path_string
        ((llvm ++ ("/bin").data) ++ (";").data
          ++ (ndk ++ ("/toolchains/llvm/prebuilt/windows-x86_64/bin").data) ++ (";").data
          ++ clean_path_string currentPath)) ]

/-- Embedding of `_setup_environment` (build.py lines 96–122): every value
of `env_vars` passes through `clean_path_string` (line 120) before being
written into the process environment; the result is the list of
(variable, written value) pairs in the order they are set. -/
def setup_environment (ndk llvm currentPath : List Char) : List (String × List Char) :=
  (rawEnvVars ndk llvm currentPath).map (fun kv => (kv.1, clean_path_string kv.2))

/-! ## Filesystem model -/

/-- File contents: one `Nat` per byte. -/
abbrev FileData := List Nat

/-- The filesystem: a partial map from paths to file contents.  A path that
exists on disk (file or directory probed by `os.path.exists`) is mapped to
`some` contents. -/
abbrev FS := String → Option FileData

/-- Point update of the filesystem (`shutil.copy2`, `os.remove`, writes by
external tools). -/
def fsUpdate (fs : FS) (p : String) (d : Option FileData) : FS :=
  fun q => if q = p then d else fs q

/-- Model of `os.path.exists`. -/
def pathExists (fs : FS) (p : String) : Bool :=
  (fs p).isSome

/-! ## Dependency checking -/

/-- The `missing_deps` list built by the loop of `_check_dependencies`
(build.py lines 132–135): every dependency whose path does not exist
contributes the entry `f"{name}: {path}"`, in order, and the loop never
stops early. -/
def missingDeps (ex : String → Bool) : List (String × String) → List String
  | [] => []
  | d :: rest =>
      if ex d.1 then missingDeps ex rest
      else (d.2 ++ ": " ++ d.1) :: missingDeps ex rest

/-- The `dependencies` list of `_check_dependencies` (build.py lines
126–130): NDK, LLVM and UPX paths with their labels. -/
def dependencies (b : Builder) : List (String × String) :=
  [(b.android_ndk_home, "Android NDK"), (b.llvm_path, "LLVM"), (b.upx_path, "UPX")]

/-- Embedding of `_check_dependencies` (build.py lines 124–144): returns
`false` exactly when `missing_deps` is non-empty. -/
def check_dependencies (ex : String → Bool) (deps : List (String × String)) : Bool :=
  (missingDeps ex deps).isEmpty

/-- The method `_check_dependencies` applied to the builder's own dependency list,
with existence read from the filesystem. -/
def check_dependencies_of (b : Builder) (fs : FS) : Bool :=
  check_dependencies (pathExists fs) (dependencies b)

/-! ## The build pipeline -/

/-- External commands the `build` method can spawn, in the order the source
spawns them: `cargo fmt --check`, `cargo fmt`, the re-run of
`cargo fmt --check` (the recheck), `cargo clippy -- -D warnings`,
`cargo build --release --target <target>`. -/
inductive Stage
  | fmtCheck
  | fmtFix
  | fmtRecheck
  | clippy
  | cargoBuild
  deriving DecidableEq, Repr

/-- Oracle for the exit statuses of the external commands: `true` means the
command exits with status zero (`subprocess.run(check=True)` does not
raise), `false` means it raises `CalledProcessError`. -/
structure World where
  fmtCheckOk : Bool
  fmtFixOk : Bool
  fmtRecheckOk : Bool
  clippyOk : Bool
  cargoBuildOk : Bool

/-- The tail of `build` after the formatting block has succeeded (build.py
lines 213–260): run clippy; on failure return `False`; otherwise run
`cargo build`; return `True` on success and `False` on failure.  `t` is the
trace of commands already spawned. -/
def buildAfterFmt (w : World) (t : List Stage) : Bool × List Stage :=
  let t1 := t ++ [Stage.clippy]
  if w.clippyOk then
    let t2 := t1 ++ [Stage.cargoBuild]
    if w.cargoBuildOk then (true, t2) else (false, t2)
  else (false, t1)

/-- Embedding of `GPUGovernorBuilder.build` (build.py lines 146–260),
returning the boolean result together with the trace of external commands
spawned.  Structure of the source: dependency check first (lines 150–152);
then `cargo fmt --check` (lines 159–174); on its failure, one `try` block
runs `cargo fmt` and, only if that succeeded, re-runs `cargo fmt --check`
(lines 181–204) — if either of the two raises, the `except` at line 206
returns `False`; after the formatting block, clippy and the release build
(via `buildAfterFmt`). -/
def build (b : Builder) (fs : FS) (w : World) : Bool × List Stage :=
  if check_dependencies_of b fs then
    let t0 := [Stage.fmtCheck]
    if w.fmtCheckOk then
      buildAfterFmt w t0
    else
      let t1 := t0 ++ [Stage.fmtFix]
      if w.fmtFixOk then
        let t2 := t1 ++ [Stage.fmtRecheck]
        if w.fmtRecheckOk then buildAfterFmt w t2
        else (false, t2)
      else (false, t1)
  else (false, [])

/-- Embedding of `copy_binary` (build.py lines 262–282): fail when the
compiled binary is absent from `target/<target>/release/<binary_name>`,
otherwise copy it to `<output_dir>/<binary_name>`. -/
def copy_binary (b : Builder) (fs : FS) : Bool × FS :=
  let source_path := "target/" ++ b.target ++ "/release/" ++ b.binary_name
  match fs source_path with
  | none => (false, fs)
  | some d => (true, fsUpdate fs (b.output_dir ++ "/" ++ b.binary_name) (some d))

/-- Embedding of `build_only_flow` (build.py lines 357–376): build, then
copy the binary; stop with `False` as soon as either fails. -/
def build_only_flow (b : Builder) (fs : FS) (w : World) : Bool × FS :=
  if (build b fs w).1 then
    copy_binary b fs
  else
    (false, fs)

/-- Exit code of `main` in the default (no-flag) mode (build.py lines
435–437): `sys.exit(1)` when `build_only_flow` returns `False`, otherwise
a normal exit with status 0. -/
def mainDefaultExit (b : Builder) (fs : FS) (w : World) : Nat :=
  if (build_only_flow b fs w).1 then 0 else 1

/-! ## Compression -/

/-- Outcome of `compress` (build.py lines 284–337).  The Python method only
returns a boolean, but the three failure paths print distinct diagnostics
(artifact not found, UPX tool not found, UPX command failed), so the
outcome is modelled as a tagged value; the success case carries the sizes
and the ratio computed at lines 297, 321 and 322. -/
inductive CompressOutcome
  | success (originalSize compressedSize : Nat) (r : ℚ)
  | artifactMissing
  | toolMissing
  | compressionFailed
  deriving DecidableEq, Repr

/-- The ratio computed at build.py line 322:
`(compressed_size / original_size) * 100`, as an exact rational.  The float
arithmetic of the source agrees with this value to well within the two
decimal places of the `{ratio:.2f}` report. -/
def ratioPercent (compressedSize originalSize : Nat) : ℚ :=
  ((compressedSize : ℚ) / (originalSize : ℚ)) * 100

/-- The `binary_path` local of `compress` (build.py line 286). -/
def binaryPath (b : Builder) : String :=
  b.output_dir ++ "/" ++ b.binary_name

/-- The `compressed_copy` local of `compress` (build.py line 301). -/
def compressedCopyPath (b : Builder) : String :=
  b.output_dir ++ "/" ++ b.binary_name ++ "_compressed"

/-- The `cmd` list passed to `subprocess.run` for UPX (build.py line 306):
the compressor binary, the `--lzma` maximum-compression flag, and the file
it is run against. -/
def upxCommand (b : Builder) : List String :=
  [b.upx_path, "--lzma", compressedCopyPath b]

/-- Oracle for the external UPX run.  `ok` is its exit status; on success
the file it was run against holds `result` afterwards; on failure the state
of that file is `failEffect` (`none` if UPX removed it).  UPX touches no
path other than the one it is given — build.py passes it only
`compressed_copy`. -/
structure UpxOracle where
  ok : Bool
  result : FileData
  failEffect : Option FileData

/-- Running UPX on `target`: only the file at `target` changes. -/
def runUpx (o : UpxOracle) (target : String) (fs : FS) : Bool × FS :=
  if o.ok then (true, fsUpdate fs target (some o.result))
  else (false, fsUpdate fs target o.failEffect)

/-- Embedding of `GPUGovernorBuilder.compress` (build.py lines 284–337).
Source structure: fail if the artifact is absent (lines 288–290); fail if
the UPX executable is absent (lines 292–294); measure `original_size`
(line 297); duplicate the artifact to `compressed_copy` (line 302); run UPX
against the duplicate (lines 306–317); on success, measure
`compressed_size` and compute the ratio (lines 321–322); on
`CalledProcessError`, delete the duplicate if it still exists (lines
335–336) and return failure. -/
def compress (b : Builder) (o : UpxOracle) (fs : FS) : CompressOutcome × FS :=
  match fs (binaryPath b) with
  | none => (CompressOutcome.artifactMissing, fs)
  | some original =>
    match fs b.upx_path with
    | none => (CompressOutcome.toolMissing, fs)
    | some _ =>
      let originalSize := original.length
      let fs1 := fsUpdate fs (compressedCopyPath b) (some original)
      let run := runUpx o (compressedCopyPath b) fs1
      if run.1 then
        let compressedSize := o.result.length
        (CompressOutcome.success originalSize compressedSize
           (ratioPercent compressedSize originalSize), run.2)
      else
        let fs3 :=
          if (run.2 (compressedCopyPath b)).isSome then
            fsUpdate run.2 (compressedCopyPath b) none
          else run.2
        (CompressOutcome.compressionFailed, fs3)

/-- Exit code of `main` in `--compress-only` mode (build.py lines
421–427): `sys.exit(1)` when `compress` fails, normal exit (status 0)
when it succeeds. -/
def mainCompressOnlyExit (b : Builder) (o : UpxOracle) (fs : FS) : Nat :=
  match (compress b o fs).1 with
  | CompressOutcome.success _ _ _ => 0
  | _ => 1

/-! ## Clean -/

/-- The Python exceptions relevant to `clean`: `CalledProcessError` from
`subprocess.run(check=True)` and the `FileNotFoundError` that
`shutil.rmtree` would raise on a missing directory. -/
inductive PyError
  | calledProcessError
  | fileNotFoundError
  deriving DecidableEq, Repr

/-- The part of the run state `clean` touches: whether the output directory
exists. -/
structure CleanState where
  outputDirExists : Bool
  deriving DecidableEq, Repr

/-- Model of `subprocess.run(["cargo", "clean"], check=True)` (build.py lines
345–347): raises `CalledProcessError` when cargo clean exits non-zero. -/
def runCargoClean (cargoOk : Bool) : Except PyError Unit :=
  if cargoOk then Except.ok () else Except.error PyError.calledProcessError

/-- Model of `shutil.rmtree(self.output_dir)`: removes the directory, raising
`FileNotFoundError` when it does not exist. -/
def rmtree (s : CleanState) : Except PyError CleanState :=
  if s.outputDirExists then Except.ok { outputDirExists := false }
  else Except.error PyError.fileNotFoundError

/-- Embedding of `GPUGovernorBuilder.clean` (build.py lines 339–355): the
cargo clean invocation sits in a `try` whose `except` only prints (lines
344–350), so its failure is swallowed; then the output directory is removed
only under the `os.path.exists` guard of line 353.  The result is
`Except.error` exactly when the method would let an exception escape. -/
def clean (cargoOk : Bool) (s : CleanState) : Except PyError CleanState :=
  let s1 :=
    match runCargoClean cargoOk with
    | Except.ok _ => s
    | Except.error _ => s
  if s1.outputDirExists then rmtree s1 else Except.ok s1

/-- Exit code of `main` in `--clean` mode (build.py lines 417–419): `clean`
is called and `main` returns — status 0 — unless an exception escapes
`clean`, which would end the process with a non-zero status. -/
def mainCleanExit (cargoOk : Bool) (s : CleanState) : Nat :=
  match clean cargoOk s with
  | Except.ok _ => 0
  | Except.error _ => 1

/-! ## Concrete test fixtures (used to instantiate the theorems) -/

/-- A filesystem on which every path exists (as an empty file). -/
def fsAll : FS := fun _ => some []

/-- A filesystem on which no path exists. -/
def fsNone : FS := fun _ => none

/-- A filesystem holding only the two-byte artifact
`output/gpugovernor`. -/
def fsArtifactOnly : FS :=
  fun p => if p = binaryPath defaultBuilder then some [0, 0] else none

/-- A filesystem holding the two-byte artifact and the UPX executable. -/
def fsArtifactAndTool : FS :=
  fun p =>
    if p = binaryPath defaultBuilder then some [0, 0]
    else if p = defaultBuilder.upx_path then some [7] else none

/-- A UPX run that succeeds, shrinking the file to a single byte. -/
def upxOkOracle : UpxOracle :=
  { ok := true, result := [0], failEffect := none }

/-- A UPX run that fails, leaving the target file in place unmodified. -/
def upxFailOracle : UpxOracle :=
  { ok := false, result := [], failEffect := some [0, 0] }

end BuildPy

/-!
## Theorems about the claims
-/

/-- C5: the dependency check of `_check_dependencies` inspects every
entry of the list (no fail-fast): the collected `missing_deps` list is
exactly the labelled entry `name ++ ": " ++ path` for every dependency
whose path is absent, in order; and the returned boolean is `true` exactly
when every dependency path exists. -/
theorem c5_dependency_check_collects_all (ex : String → Bool)
    (deps : List (String × String)) :
    BuildPy.missingDeps ex deps
      = (deps.filter (fun d => !ex d.1)).map (fun d => d.2 ++ ": " ++ d.1)
    ∧ BuildPy.check_dependencies ex deps = deps.all (fun d => ex d.1) := by
  constructor
  · induction deps with
    | nil => rfl
    | cons d rest ih =>
        cases h : ex d.1 <;> simp [BuildPy.missingDeps, h, ih]
  · induction deps with
    | nil => rfl
    | cons d rest ih =>
        cases h : ex d.1 <;>
          simp_all [BuildPy.check_dependencies, BuildPy.missingDeps, h]

/-- C6: `clean_path_string` removes every quote character (double and
single) from its input, and every environment-variable value written by
`_setup_environment` — including the merged pre-existing `PATH` value —
contains no quote character. -/
theorem c6_sanitizer_removes_quotes :
    (∀ s : List Char,
        '"' ∉ BuildPy.clean_path_string s ∧ '\'' ∉ BuildPy.clean_path_string s)
    ∧ ∀ (ndk llvm currentPath : List Char) (k : String) (v : List Char),
        (k, v) ∈ BuildPy.setup_environment ndk llvm currentPath →
        '"' ∉ v ∧ '\'' ∉ v := by
  have key : ∀ s : List Char,
      '"' ∉ BuildPy.clean_path_string s ∧ '\'' ∉ BuildPy.clean_path_string s := by
    intro s
    constructor
    · intro h
      simp [BuildPy.clean_path_string, List.mem_filter] at h
    · intro h
      simp [BuildPy.clean_path_string, List.mem_filter] at h
  refine ⟨key, ?_⟩
  intro ndk llvm currentPath k v hv
  simp only [BuildPy.setup_environment, List.mem_map] at hv
  obtain ⟨kv, _, hkv⟩ := hv
  have hv2 : v = BuildPy.clean_path_string kv.2 := by
    have := congrArg Prod.snd hkv
    simpa using this.symm
  rw [hv2]
  exact key kv.2

/-- Witness for C6 at concrete inputs: sanitizing `a"b` leaves no quotes,
and the `ANDROID_NDK_HOME` value actually written for the quoted input
`D"` is quote-free. -/
theorem c6_sanitizer_removes_quotes_witness :
    ('"' ∉ BuildPy.clean_path_string ['a', '"', 'b']
      ∧ '\'' ∉ BuildPy.clean_path_string ['a', '"', 'b'])
    ∧ ('"' ∉ BuildPy.clean_path_string ['D', '"']
      ∧ '\'' ∉ BuildPy.clean_path_string ['D', '"']) :=
  ⟨c6_sanitizer_removes_quotes.1 ['a', '"', 'b'],
   c6_sanitizer_removes_quotes.2 ['D', '"'] [] [] "ANDROID_NDK_HOME"
     (BuildPy.clean_path_string ['D', '"']) (by decide)⟩

/-- C1: in every run of `build`, the remediation commands (`cargo fmt`
and the recheck) are spawned at most once; and when the initial format
check fails, the auto-format succeeds and the recheck succeeds, the
pipeline goes on to spawn clippy (the lint stage), with the remediation
having run exactly once. -/
theorem c1_format_remediation_proceeds_to_lint (b : BuildPy.Builder)
    (fs : BuildPy.FS) (w : BuildPy.World) :
    ((BuildPy.build b fs w).2.count BuildPy.Stage.fmtFix ≤ 1
      ∧ (BuildPy.build b fs w).2.count BuildPy.Stage.fmtRecheck ≤ 1)
    ∧ (BuildPy.check_dependencies_of b fs = true →
        w.fmtCheckOk = false → w.fmtFixOk = true → w.fmtRecheckOk = true →
        BuildPy.Stage.clippy ∈ (BuildPy.build b fs w).2
          ∧ (BuildPy.build b fs w).2.count BuildPy.Stage.fmtFix = 1) := by
  obtain ⟨f1, f2, f3, f4, f5⟩ := w
  cases hd : BuildPy.check_dependencies_of b fs <;>
    cases f1 <;> cases f2 <;> cases f3 <;> cases f4 <;> cases f5 <;>
      simp [BuildPy.build, BuildPy.buildAfterFmt, hd]

/-- Witness for C1: dependencies present, format check fails, fix and
recheck succeed — clippy is spawned and the fix ran exactly once. -/
theorem c1_format_remediation_proceeds_to_lint_witness :
    BuildPy.Stage.clippy ∈
        (BuildPy.build BuildPy.defaultBuilder BuildPy.fsAll
          ⟨false, true, true, true, true⟩).2
      ∧ (BuildPy.build BuildPy.defaultBuilder BuildPy.fsAll
          ⟨false, true, true, true, true⟩).2.count BuildPy.Stage.fmtFix = 1 :=
  (c1_format_remediation_proceeds_to_lint BuildPy.defaultBuilder BuildPy.fsAll
      ⟨false, true, true, true, true⟩).2 (by decide) rfl rfl rfl

/-- C2: when the initial format check fails and then the auto-format
fails, or the auto-format succeeds but the recheck fails, `build` returns
`False` and neither clippy (lint) nor `cargo build` (compile) is ever
spawned in that run. -/
theorem c2_failed_remediation_halts (b : BuildPy.Builder) (fs : BuildPy.FS)
    (w : BuildPy.World) (hd : BuildPy.check_dependencies_of b fs = true)
    (h1 : w.fmtCheckOk = false)
    (h2 : w.fmtFixOk = false ∨ w.fmtRecheckOk = false) :
    (BuildPy.build b fs w).1 = false
    ∧ BuildPy.Stage.clippy ∉ (BuildPy.build b fs w).2
    ∧ BuildPy.Stage.cargoBuild ∉ (BuildPy.build b fs w).2 := by
  obtain ⟨f1, f2, f3, f4, f5⟩ := w
  simp only at h1 h2
  cases f1 <;> cases f2 <;> cases f3 <;> cases f4 <;> cases f5 <;>
    simp [BuildPy.build, BuildPy.buildAfterFmt, hd] <;> simp_all

/-- Witness for C2: dependencies present, format check fails, auto-format
succeeds but the recheck fails — the run fails and lint/compile never
run. -/
theorem c2_failed_remediation_halts_witness :
    (BuildPy.build BuildPy.defaultBuilder BuildPy.fsAll
        ⟨false, true, false, true, true⟩).1 = false
    ∧ BuildPy.Stage.clippy ∉
        (BuildPy.build BuildPy.defaultBuilder BuildPy.fsAll
          ⟨false, true, false, true, true⟩).2
    ∧ BuildPy.Stage.cargoBuild ∉
        (BuildPy.build BuildPy.defaultBuilder BuildPy.fsAll
          ⟨false, true, false, true, true⟩).2 :=
  c2_failed_remediation_halts BuildPy.defaultBuilder BuildPy.fsAll
    ⟨false, true, false, true, true⟩ (by decide) rfl (Or.inr rfl)

/-- C3: `compress` is non-destructive: on every invocation — success,
UPX failure, missing artifact or missing tool — the file at
`<output_dir>/<binary_name>` afterwards is byte-for-byte the file that was
there before; the UPX command's file argument is the duplicate path
`<output_dir>/<binary_name>_compressed`, which differs from the original's
path. -/
theorem c3_compress_preserves_original (b : BuildPy.Builder)
    (o : BuildPy.UpxOracle) (fs : BuildPy.FS) :
    (BuildPy.compress b o fs).2 (BuildPy.binaryPath b) = fs (BuildPy.binaryPath b)
    ∧ (BuildPy.upxCommand b).getLast? = some (BuildPy.compressedCopyPath b)
    ∧ BuildPy.binaryPath b ≠ BuildPy.compressedCopyPath b := by
  have hne : BuildPy.binaryPath b ≠ BuildPy.compressedCopyPath b := by
    intro h
    have h2 := congrArg String.length h
    rw [show BuildPy.compressedCopyPath b = BuildPy.binaryPath b ++ "_compressed" from rfl,
      String.length_append] at h2
    simp at h2
    exact absurd h2 (by decide)
  refine ⟨?_, rfl, hne⟩
  unfold BuildPy.compress
  cases hb : fs (BuildPy.binaryPath b) with
  | none => exact hb
  | some original =>
    cases hu : fs b.upx_path with
    | none => exact hb
    | some tool =>
      cases ho : o.ok with
      | false =>
          simp only [BuildPy.runUpx, ho, Bool.false_eq_true, reduceIte]
          split <;> simp [BuildPy.fsUpdate, hne, hb]
      | true =>
          simp [BuildPy.runUpx, ho, BuildPy.fsUpdate, hne, hb]

/-- C4: when the artifact and the UPX tool both exist but the UPX
command fails, `compress` returns the failure outcome and the duplicate at
`<output_dir>/<binary_name>_compressed` is gone from disk afterwards. -/
theorem c4_failed_compression_removes_duplicate (b : BuildPy.Builder)
    (o : BuildPy.UpxOracle) (fs : BuildPy.FS) (orig tool : BuildPy.FileData)
    (horig : fs (BuildPy.binaryPath b) = some orig)
    (htool : fs b.upx_path = some tool)
    (hfail : o.ok = false) :
    (BuildPy.compress b o fs).1 = BuildPy.CompressOutcome.compressionFailed
    ∧ (BuildPy.compress b o fs).2 (BuildPy.compressedCopyPath b) = none := by
  unfold BuildPy.compress
  rw [horig, htool]
  simp only [BuildPy.runUpx, hfail, Bool.false_eq_true, reduceIte]
  constructor
  · trivial
  · split
    · simp [BuildPy.fsUpdate]
    · rename_i hnot
      simpa [BuildPy.fsUpdate] using hnot

/-- Witness for C4: artifact and tool present, UPX fails leaving the
duplicate behind — `compress` reports failure and deletes the duplicate. -/
theorem c4_failed_compression_removes_duplicate_witness :
    (BuildPy.compress BuildPy.defaultBuilder BuildPy.upxFailOracle
        BuildPy.fsArtifactAndTool).1 = BuildPy.CompressOutcome.compressionFailed
    ∧ (BuildPy.compress BuildPy.defaultBuilder BuildPy.upxFailOracle
        BuildPy.fsArtifactAndTool).2
        (BuildPy.compressedCopyPath BuildPy.defaultBuilder) = none :=
  c4_failed_compression_removes_duplicate BuildPy.defaultBuilder
    BuildPy.upxFailOracle BuildPy.fsArtifactAndTool [0, 0] [7]
    (by decide) (by decide) rfl

/-- C7: in `--compress-only` mode: a missing artifact yields the
`ArtifactMissing` outcome and exit code 1, and this holds whatever the
state of the UPX tool (the artifact check is decisive first); a present
artifact with a missing UPX executable yields the `ToolMissing` outcome
and exit code 1. -/
theorem c7_compress_only_failure_modes (b : BuildPy.Builder)
    (o : BuildPy.UpxOracle) (fs : BuildPy.FS) :
    (fs (BuildPy.binaryPath b) = none →
      (BuildPy.compress b o fs).1 = BuildPy.CompressOutcome.artifactMissing
        ∧ BuildPy.mainCompressOnlyExit b o fs = 1)
    ∧ (∀ d, fs (BuildPy.binaryPath b) = some d → fs b.upx_path = none →
      (BuildPy.compress b o fs).1 = BuildPy.CompressOutcome.toolMissing
        ∧ BuildPy.mainCompressOnlyExit b o fs = 1) := by
  constructor
  · intro h
    simp [BuildPy.compress, BuildPy.mainCompressOnlyExit, h]
  · intro d hd hu
    simp [BuildPy.compress, BuildPy.mainCompressOnlyExit, hd, hu]

/-- Witness for C7: on an empty filesystem `--compress-only` reports the
missing artifact with exit 1; with only the artifact present it reports the
missing tool with exit 1. -/
theorem c7_compress_only_failure_modes_witness :
    ((BuildPy.compress BuildPy.defaultBuilder BuildPy.upxOkOracle
        BuildPy.fsNone).1 = BuildPy.CompressOutcome.artifactMissing
      ∧ BuildPy.mainCompressOnlyExit BuildPy.defaultBuilder BuildPy.upxOkOracle
          BuildPy.fsNone = 1)
    ∧ ((BuildPy.compress BuildPy.defaultBuilder BuildPy.upxOkOracle
        BuildPy.fsArtifactOnly).1 = BuildPy.CompressOutcome.toolMissing
      ∧ BuildPy.mainCompressOnlyExit BuildPy.defaultBuilder BuildPy.upxOkOracle
          BuildPy.fsArtifactOnly = 1) :=
  ⟨(c7_compress_only_failure_modes BuildPy.defaultBuilder BuildPy.upxOkOracle
      BuildPy.fsNone).1 rfl,
   (c7_compress_only_failure_modes BuildPy.defaultBuilder BuildPy.upxOkOracle
      BuildPy.fsArtifactOnly).2 [0, 0] (by decide) (by decide)⟩

/-- C8: `clean` is best-effort and idempotent: whatever the cargo clean
exit status and the prior state, it raises nothing and leaves the output
directory removed; a second call on the resulting state also raises
nothing; the `--clean` mode of `main` exits with status 0; and the
`os.path.exists` guard is what prevents an error, since an unguarded
removal of a missing directory would raise. -/
theorem c8_clean_idempotent_best_effort (cargoOk cargoOk2 : Bool)
    (s : BuildPy.CleanState) :
    BuildPy.clean cargoOk s = Except.ok ⟨false⟩
    ∧ (BuildPy.clean cargoOk s).bind (BuildPy.clean cargoOk2) = Except.ok ⟨false⟩
    ∧ BuildPy.mainCleanExit cargoOk s = 0
    ∧ BuildPy.rmtree ⟨false⟩ = Except.error BuildPy.PyError.fileNotFoundError := by
  obtain ⟨d⟩ := s
  cases cargoOk <;> cases cargoOk2 <;> cases d <;>
    exact ⟨rfl, rfl, rfl, rfl⟩

/-- C9: whenever `compress` reports success, the reported ratio equals
`compressedSize / originalSize * 100` and `originalSize` is the byte count
of the artifact as it was before duplication; at the literal sizes of the
claim, original = 1,000,000 and compressed = 400,000 give a ratio of 40,
i.e. the `{ratio:.2f}` report prints `40.00`. -/
theorem c9_compression_ratio (b : BuildPy.Builder) (o : BuildPy.UpxOracle)
    (fs : BuildPy.FS) (n c : Nat) (r : ℚ)
    (h : (BuildPy.compress b o fs).1 = BuildPy.CompressOutcome.success n c r) :
    r = (c : ℚ) / (n : ℚ) * 100
    ∧ (∀ orig, fs (BuildPy.binaryPath b) = some orig → n = orig.length)
    ∧ BuildPy.ratioPercent 400000 1000000 = 40 := by
  unfold BuildPy.compress at h
  cases hb : fs (BuildPy.binaryPath b) with
  | none =>
      rw [hb] at h
      simp at h
  | some original =>
      rw [hb] at h
      cases hu : fs b.upx_path with
      | none =>
          rw [hu] at h
          simp at h
      | some tool =>
          rw [hu] at h
          cases ho : o.ok with
          | false =>
              simp [BuildPy.runUpx, ho] at h
          | true =>
              simp only [BuildPy.runUpx, ho, reduceIte,
                BuildPy.CompressOutcome.success.injEq] at h
              obtain ⟨hn, hc, hr⟩ := h
              subst hn; subst hc
              refine ⟨?_, ?_, ?_⟩
              · rw [← hr]
                rfl
              · intro orig horig
                injection horig with he
                rw [he]
              · norm_num [BuildPy.ratioPercent]

/-- Witness for C9: a 2-byte artifact compressed to 1 byte is reported with
ratio `1 / 2 * 100 = 50`, and the claim's literal sizes give 40. -/
theorem c9_compression_ratio_witness :
    BuildPy.ratioPercent 1 2 = (1 : ℚ) / (2 : ℚ) * 100
    ∧ BuildPy.ratioPercent 400000 1000000 = 40 :=
  have h := c9_compression_ratio BuildPy.defaultBuilder BuildPy.upxOkOracle
    BuildPy.fsArtifactAndTool 2 1 (BuildPy.ratioPercent 1 2) rfl
  ⟨h.1, h.2.2⟩

/-- C10: the dependency list checked at the start of every `build`
includes the UPX path, so with UPX absent from disk the default build-only
flow — which never calls `compress` — fails at the dependency check
(`missing_deps` contains the labelled UPX entry), `build` returns `False`
without spawning any command, and `main` exits with status 1. -/
theorem c10_default_build_requires_upx (fs : BuildPy.FS) (w : BuildPy.World)
    (h : fs BuildPy.defaultBuilder.upx_path = none) :
    BuildPy.check_dependencies_of BuildPy.defaultBuilder fs = false
    ∧ ("UPX: D:/upx/upx.exe"
        ∈ BuildPy.missingDeps (BuildPy.pathExists fs)
            (BuildPy.dependencies BuildPy.defaultBuilder))
    ∧ (BuildPy.build BuildPy.defaultBuilder fs w).1 = false
    ∧ (BuildPy.build_only_flow BuildPy.defaultBuilder fs w).1 = false
    ∧ BuildPy.mainDefaultExit BuildPy.defaultBuilder fs w = 1 := by
  have hupx : BuildPy.pathExists fs BuildPy.defaultBuilder.upx_path = false := by
    simp [BuildPy.pathExists, h]
  have hmem : "UPX: D:/upx/upx.exe"
      ∈ BuildPy.missingDeps (BuildPy.pathExists fs)
          (BuildPy.dependencies BuildPy.defaultBuilder) := by
    cases h1 : BuildPy.pathExists fs BuildPy.defaultBuilder.android_ndk_home <;>
      cases h2 : BuildPy.pathExists fs BuildPy.defaultBuilder.llvm_path <;>
        simp [BuildPy.missingDeps, BuildPy.dependencies, h1, h2, hupx] <;>
          decide
  have hchk : BuildPy.check_dependencies_of BuildPy.defaultBuilder fs = false := by
    unfold BuildPy.check_dependencies_of BuildPy.check_dependencies
    cases hm : BuildPy.missingDeps (BuildPy.pathExists fs)
        (BuildPy.dependencies BuildPy.defaultBuilder) with
    | nil => rw [hm] at hmem; exact absurd hmem (by simp)
    | cons a t => simp
  refine ⟨hchk, hmem, ?_, ?_, ?_⟩
  · simp [BuildPy.build, hchk]
  · simp [BuildPy.build_only_flow, BuildPy.build, hchk]
  · simp [BuildPy.mainDefaultExit, BuildPy.build_only_flow, BuildPy.build, hchk]

/-- Witness for C10: on an empty filesystem the default flow fails and
exits 1, with the UPX dependency listed as missing. -/
theorem c10_default_build_requires_upx_witness :
    BuildPy.check_dependencies_of BuildPy.defaultBuilder BuildPy.fsNone = false
    ∧ ("UPX: D:/upx/upx.exe"
        ∈ BuildPy.missingDeps (BuildPy.pathExists BuildPy.fsNone)
            (BuildPy.dependencies BuildPy.defaultBuilder))
    ∧ (BuildPy.build BuildPy.defaultBuilder BuildPy.fsNone
        ⟨true, true, true, true, true⟩).1 = false
    ∧ (BuildPy.build_only_flow BuildPy.defaultBuilder BuildPy.fsNone
        ⟨true, true, true, true, true⟩).1 = false
    ∧ BuildPy.mainDefaultExit BuildPy.defaultBuilder BuildPy.fsNone
        ⟨true, true, true, true, true⟩ = 1 :=
  c10_default_build_requires_upx BuildPy.fsNone
    ⟨true, true, true, true, true⟩ rfl
